import Mathlib

/-!
Shallow embedding of `src/app.py` (Container Data Analysis Tool), covering the
container-comparison core: column identification (`identify_container_column`)
and the spreadsheet comparison (`compare_container_spreadsheets`).

Cells are modelled as strings: the comparison code converts every cell with
`astype(str)` before any use, so the string value is the only thing that
matters to it.  Python string comparison (`sorted`, `<`) is lexicographic on
code points, which coincides with `String`'s linear order in Mathlib.
-/

namespace App

/-- Characters removed by Python `str.strip()` at the ends of a string (the
ASCII whitespace characters; Python also strips some further Unicode space
characters, which changes nothing in the properties proved here). -/
def pyIsSpace (c : Char) : Bool :=
  c == ' ' || c == '\t' || c == '\n' || c == '\r' || c == '\x0b' || c == '\x0c'

/-- Python `str.strip()` on the underlying character list: drop the
whitespace run at the front, then the one at the back. -/
def stripChars (l : List Char) : List Char :=
  ((l.dropWhile pyIsSpace).reverse.dropWhile pyIsSpace).reverse

/-- The identifier normalization applied at src/app.py lines 82-83:
`.astype(str).str.strip()`.  With cells modelled as strings this is exactly
Python `str.strip()`.  Note there is no case folding here. -/
def normalizeId (s : String) : String := ⟨stripChars s.data⟩

/-- A pandas DataFrame as the comparison code uses one: a header list and a
list of rows, each row a list of cells parallel to the headers. -/
structure DataFrame where
  cols : List String
  rows : List (List String)

/-- `df[c]`: the values of column `c`, located by the position of `c` in the
header list (headers assumed unique, as for pandas column access). -/
def colValues (df : DataFrame) (c : String) : List String :=
  match df.cols.findIdx? (fun n => n == c) with
  | some i => df.rows.map (fun r => r.getD i "")
  | none => []

/-- `set(df[c].astype(str).str.strip())` (src/app.py lines 82-83): the
distinct normalized identifiers of column `c`.  A duplicate-free list models
the Python set; `sorted` below fixes the order exactly as the source does. -/
def containerSet (df : DataFrame) (c : String) : List String :=
  ((colValues df c).map normalizeId).dedup

/-- Python set difference `a - b` on the duplicate-free lists modelling the
two sets (src/app.py lines 86-87). -/
def setDiff (a b : List String) : List String :=
  a.filter (fun x => decide (x ∉ b))

/-- Python `sorted` on a list of strings: ascending lexicographic order
(src/app.py lines 92 and 99). -/
def sortedList (l : List String) : List String :=
  l.insertionSort (fun a b => a ≤ b)

/-- One row of the results DataFrame (src/app.py lines 93-97 and 100-104). -/
structure ResultRow where
  containerNumber : String
  cyman : String
  tops : String
deriving DecidableEq

/-- The results DataFrame: its column structure and its rows. -/
structure Report where
  cols : List String
  rows : List ResultRow
deriving DecidableEq

/-- The record appended for a container only in TOPS (src/app.py 93-97). -/
def tops_row (x : String) : ResultRow := ⟨x, "Missing", "Present"⟩

/-- The record appended for a container only in Cyman (src/app.py 100-104). -/
def cyman_row (x : String) : ResultRow := ⟨x, "Present", "Missing"⟩

/-- src/app.py lines 61-110, `compare_container_spreadsheets`.  The `None`
guards of line 73 are modelled by the inputs being present; the column check
of line 77 yields `none`.  Both result branches (lines 106-110) carry the
same column structure, so they are built uniformly here: for the empty case
line 107 names the columns explicitly, and line 109 infers the same three
columns from the dict keys. -/
def compare_container_spreadsheets (tops_df cyman_df : DataFrame)
    (container_column : String) : Option Report :=
  if container_column ∈ tops_df.cols ∧ container_column ∈ cyman_df.cols then
    let tops_containers := containerSet tops_df container_column
    let cyman_containers := containerSet cyman_df container_column
    let tops_only := setDiff tops_containers cyman_containers
    let cyman_only := setDiff cyman_containers tops_containers
    some ⟨["CONTAINER NUMBER", "CYMAN", "TOPS"],
      (sortedList tops_only).map tops_row ++ (sortedList cyman_only).map cyman_row⟩
  else
    none

/-- src/app.py lines 43-46: the ordered exact candidates for the container
column. -/
def possible_column_names : List String :=
  ["CONTAINER NUMBER", "CONTAINER", "CONTAINER NO", "CONTAINER_NUMBER",
   "container", "container_number", "container_no", "containerno", "container_id"]

/-- `a` starts the list `b` (character-by-character comparison). -/
def startsWith : List Char → List Char → Bool
  | [], _ => true
  | _ :: _, [] => false
  | a :: as, b :: bs => a == b && startsWith as bs

/-- `needle` occurs as a contiguous run inside `hay` (Python `in` on
strings). -/
def containsSeq (needle : List Char) : List Char → Bool
  | [] => needle.isEmpty
  | c :: t => startsWith needle (c :: t) || containsSeq needle t

/-- Python `'container' in col.lower()` (src/app.py line 55).  Lower-casing
is per character; `Char.toLower` agrees with Python `str.lower()` on the
ASCII headers at issue. -/
def lowerContainsContainer (col : String) : Bool :=
  containsSeq "container".data (col.data.map Char.toLower)

/-- src/app.py lines 37-58, `identify_container_column`: first the exact
candidates in declaration order, then the first header containing
`container` case-insensitively, else `none`. -/
def identify_container_column (df : DataFrame) : Option String :=
  match possible_column_names.find? (fun n => decide (n ∈ df.cols)) with
  | some n => some n
  | none => df.cols.find? (fun col => lowerContainsContainer col)

/-- Spec §4.2 status normalization (modelled from the spec, for stating how
the source deviates from the spec's Row Filter): trim, then lower-case. -/
def normalizeStatus (s : String) : String := ⟨(stripChars s.data).map Char.toLower⟩

/-- Spec §4.3/§6: the Source-A accepted status set (modelled from the spec,
for stating how the source deviates from the spec's Row Filter). -/
def acceptedStatuses : List String := ["complete", "in progress"]

/-! ### Helper lemmas about stripping -/

theorem dropWhile_dropWhile {α} (p : α → Bool) (l : List α) :
    (l.dropWhile p).dropWhile p = l.dropWhile p := by
  induction l with
  | nil => rfl
  | cons a t ih =>
    by_cases h : p a = true
    · simp [List.dropWhile_cons, h, ih]
    · simp [List.dropWhile_cons, h]

theorem dropWhile_of_append_eq {α} (p : α → Bool) :
    ∀ u v : List α, (u ++ v).dropWhile p = u ++ v → u.dropWhile p = u
  | [], _, _ => rfl
  | a :: u, v, h => by
    have hpa : p a = false := by
      by_contra hp
      have hpa : p a = true := by simpa using hp
      rw [List.cons_append, List.dropWhile_cons, if_pos hpa] at h
      have hlen := (@List.dropWhile_sublist _ (u ++ v) p).length_le
      rw [h] at hlen
      simp only [List.length_cons, List.length_append] at hlen
      omega
    rw [List.dropWhile_cons, if_neg (by simp [hpa])]

theorem stripChars_rev_dropWhile (l : List Char) :
    (stripChars l).reverse.dropWhile pyIsSpace = (stripChars l).reverse := by
  unfold stripChars
  rw [List.reverse_reverse]
  exact dropWhile_dropWhile _ _

theorem dropWhile_eq_strip_append (l : List Char) :
    l.dropWhile pyIsSpace =
      stripChars l ++ ((l.dropWhile pyIsSpace).reverse.takeWhile pyIsSpace).reverse := by
  show l.dropWhile pyIsSpace =
    ((l.dropWhile pyIsSpace).reverse.dropWhile pyIsSpace).reverse ++
      ((l.dropWhile pyIsSpace).reverse.takeWhile pyIsSpace).reverse
  rw [← List.reverse_append, List.takeWhile_append_dropWhile, List.reverse_reverse]

theorem stripChars_dropWhile (l : List Char) :
    (stripChars l).dropWhile pyIsSpace = stripChars l := by
  refine dropWhile_of_append_eq pyIsSpace (stripChars l)
    ((l.dropWhile pyIsSpace).reverse.takeWhile pyIsSpace).reverse ?_
  rw [← dropWhile_eq_strip_append]
  exact dropWhile_dropWhile _ _

theorem stripChars_idem (l : List Char) : stripChars (stripChars l) = stripChars l := by
  have h : stripChars (stripChars l) =
      (((stripChars l).dropWhile pyIsSpace).reverse.dropWhile pyIsSpace).reverse := rfl
  rw [h, stripChars_dropWhile, stripChars_rev_dropWhile, List.reverse_reverse]

theorem strip_decomposition (l : List Char) :
    l = l.takeWhile pyIsSpace ++ stripChars l ++
      ((l.dropWhile pyIsSpace).reverse.takeWhile pyIsSpace).reverse := by
  rw [List.append_assoc, ← dropWhile_eq_strip_append]
  exact (List.takeWhile_append_dropWhile pyIsSpace l).symm

/-! ### Helper lemmas about the comparison -/

theorem mem_setDiff {x : String} {a b : List String} :
    x ∈ setDiff a b ↔ x ∈ a ∧ x ∉ b := by
  simp [setDiff]

theorem mem_sortedList {x : String} {l : List String} :
    x ∈ sortedList l ↔ x ∈ l :=
  List.mem_insertionSort _

theorem sorted_sortedList (l : List String) :
    List.Sorted (· ≤ ·) (sortedList l) :=
  List.sorted_insertionSort _ l

theorem length_sortedList (l : List String) :
    (sortedList l).length = l.length :=
  List.length_insertionSort _ l

theorem compare_eq_some_elim {t c : DataFrame} {col : String} {rep : Report}
    (h : compare_container_spreadsheets t c col = some rep) :
    col ∈ t.cols ∧ col ∈ c.cols ∧
      rep = ⟨["CONTAINER NUMBER", "CYMAN", "TOPS"],
        (sortedList (setDiff (containerSet t col) (containerSet c col))).map tops_row ++
          (sortedList (setDiff (containerSet c col) (containerSet t col))).map cyman_row⟩ := by
  unfold compare_container_spreadsheets at h
  split at h
  · next hc => exact ⟨hc.1, hc.2, (Option.some.inj h).symm⟩
  · exact absurd h (by simp)

/-! ### Claims -/

/-- C9: identifier normalization (the `astype(str).str.strip()` of
src/app.py lines 82-83) is idempotent: stripping a stripped value changes
nothing. -/
theorem C9_normalize_idempotent (s : String) :
    normalizeId (normalizeId s) = normalizeId s :=
  congrArg String.mk (stripChars_idem s.data)

/-- C2 counterexample: identifier matching in the source is NOT
case-insensitive.  Normalization keeps letter case, so `" abc123 "` and
`"ABC123"` normalize to different comparison keys. -/
theorem C2_case_insensitivity_fails :
    normalizeId " abc123 " = "abc123" ∧ normalizeId "ABC123" = "ABC123" ∧
      normalizeId " abc123 " ≠ normalizeId "ABC123" := by
  refine ⟨by decide, by decide, by decide⟩

/-- C2 (amended): identifier normalization is case-preserving, not
case-insensitive.  It only removes leading and trailing whitespace: the
normalized value is a contiguous segment of the raw value, every removed
character is whitespace, and in particular normalize(" abc123 ") = "abc123"
differs from normalize("ABC123") = "ABC123". -/
theorem C2_normalization_strips_only :
    (∀ s : String, ∃ u v : List Char,
        s.data = u ++ (normalizeId s).data ++ v ∧
        (∀ ch ∈ u, pyIsSpace ch = true) ∧ (∀ ch ∈ v, pyIsSpace ch = true)) ∧
    normalizeId " abc123 " = "abc123" ∧ normalizeId "ABC123" = "ABC123" := by
  refine ⟨fun s => ?_, by decide, by decide⟩
  refine ⟨s.data.takeWhile pyIsSpace,
    ((s.data.dropWhile pyIsSpace).reverse.takeWhile pyIsSpace).reverse, ?_, ?_, ?_⟩
  · exact strip_decomposition s.data
  · exact fun ch hch => List.mem_takeWhile_imp hch
  · intro ch hch
    rw [List.mem_reverse] at hch
    exact List.mem_takeWhile_imp hch

/-- C5: on filtered identifier sets {X1,X2,X3} and {X2,X3,X4} the comparison
reports exactly the two records ["X1" present in TOPS and missing in Cyman,
"X4" present in Cyman and missing in TOPS], in that sorted order. -/
theorem C5_scenario1 :
    compare_container_spreadsheets
        ⟨["CONTAINER NUMBER"], [["X1"], ["X2"], ["X3"]]⟩
        ⟨["CONTAINER NUMBER"], [["X2"], ["X3"], ["X4"]]⟩
        "CONTAINER NUMBER" =
      some ⟨["CONTAINER NUMBER", "CYMAN", "TOPS"],
        [⟨"X1", "Missing", "Present"⟩, ⟨"X4", "Present", "Missing"⟩]⟩ := by
  decide

/-- C1 counterexample: the Report is NOT one globally sorted sequence.  With
TOPS containing only "B" and Cyman only "A", the report lists "B" before
"A", which is not ascending order. -/
theorem C1_not_globally_sorted :
    compare_container_spreadsheets ⟨["CONTAINER NUMBER"], [["B"]]⟩
        ⟨["CONTAINER NUMBER"], [["A"]]⟩ "CONTAINER NUMBER" =
      some ⟨["CONTAINER NUMBER", "CYMAN", "TOPS"],
        [⟨"B", "Missing", "Present"⟩, ⟨"A", "Present", "Missing"⟩]⟩ ∧
    List.map ResultRow.containerNumber
        [⟨"B", "Missing", "Present"⟩, ⟨"A", "Present", "Missing"⟩] = ["B", "A"] ∧
    ¬ List.Sorted (· ≤ ·) (["B", "A"] : List String) := by
  refine ⟨by decide, by decide, ?_⟩
  simp only [List.sorted_cons]
  intro h
  have hba := h.1 "A" (by simp)
  rw [String.le_iff_toList_le] at hba
  revert hba
  decide

/-- C1 (amended): the Report is the A-only records in ascending identifier
order followed by the B-only records in ascending identifier order — two
independently sorted blocks, not one globally sorted interleaving — and its
total equals the length of the merged sequence. -/
theorem C1_two_sorted_blocks (t c : DataFrame) (col : String) (rep : Report)
    (h : compare_container_spreadsheets t c col = some rep) :
    ∃ pA pB : List ResultRow,
      rep.rows = pA ++ pB ∧
      List.Sorted (· ≤ ·) (pA.map ResultRow.containerNumber) ∧
      List.Sorted (· ≤ ·) (pB.map ResultRow.containerNumber) ∧
      (∀ r ∈ pA, r.cyman = "Missing" ∧ r.tops = "Present") ∧
      (∀ r ∈ pB, r.cyman = "Present" ∧ r.tops = "Missing") ∧
      rep.rows.length =
        (setDiff (containerSet t col) (containerSet c col)).length +
          (setDiff (containerSet c col) (containerSet t col)).length := by
  obtain ⟨h1, h2, h3⟩ := compare_eq_some_elim h
  subst h3
  refine ⟨_, _, rfl, ?_, ?_, ?_, ?_, ?_⟩
  · have : List.map ResultRow.containerNumber
        ((sortedList (setDiff (containerSet t col) (containerSet c col))).map tops_row) =
        sortedList (setDiff (containerSet t col) (containerSet c col)) := by
      rw [List.map_map]
      exact List.map_id _
    rw [this]
    exact sorted_sortedList _
  · have : List.map ResultRow.containerNumber
        ((sortedList (setDiff (containerSet c col) (containerSet t col))).map cyman_row) =
        sortedList (setDiff (containerSet c col) (containerSet t col)) := by
      rw [List.map_map]
      exact List.map_id _
    rw [this]
    exact sorted_sortedList _
  · intro r hr
    obtain ⟨y, _, rfl⟩ := List.mem_map.mp hr
    exact ⟨rfl, rfl⟩
  · intro r hr
    obtain ⟨y, _, rfl⟩ := List.mem_map.mp hr
    exact ⟨rfl, rfl⟩
  · simp [List.length_append, List.length_map, length_sortedList]

/-- C1 witness: the amended theorem applied to the concrete pair from the
counterexample. -/
theorem C1_two_sorted_blocks_witness :
    ∃ pA pB : List ResultRow,
      (Report.rows ⟨["CONTAINER NUMBER", "CYMAN", "TOPS"],
          [⟨"B", "Missing", "Present"⟩, ⟨"A", "Present", "Missing"⟩]⟩) = pA ++ pB ∧
      List.Sorted (· ≤ ·) (pA.map ResultRow.containerNumber) ∧
      List.Sorted (· ≤ ·) (pB.map ResultRow.containerNumber) ∧
      (∀ r ∈ pA, r.cyman = "Missing" ∧ r.tops = "Present") ∧
      (∀ r ∈ pB, r.cyman = "Present" ∧ r.tops = "Missing") ∧
      (Report.rows ⟨["CONTAINER NUMBER", "CYMAN", "TOPS"],
          [⟨"B", "Missing", "Present"⟩, ⟨"A", "Present", "Missing"⟩]⟩).length =
        (setDiff (containerSet ⟨["CONTAINER NUMBER"], [["B"]]⟩ "CONTAINER NUMBER")
            (containerSet ⟨["CONTAINER NUMBER"], [["A"]]⟩ "CONTAINER NUMBER")).length +
          (setDiff (containerSet ⟨["CONTAINER NUMBER"], [["A"]]⟩ "CONTAINER NUMBER")
            (containerSet ⟨["CONTAINER NUMBER"], [["B"]]⟩ "CONTAINER NUMBER")).length :=
  C1_two_sorted_blocks ⟨["CONTAINER NUMBER"], [["B"]]⟩ ⟨["CONTAINER NUMBER"], [["A"]]⟩
    "CONTAINER NUMBER" _ (by decide)

/-- C3 counterexample: the source applies NO Status/Location row filter.  A
TOPS row whose status "cancelled" is outside the accepted set (and whose
location is not the holding center) still contributes its identifier: "Z9"
is reported even though the Source-A preset would exclude its row. -/
theorem C3_unfiltered_row_contributes :
    normalizeStatus "cancelled" ∉ acceptedStatuses ∧
    compare_container_spreadsheets
        ⟨["CONTAINER NUMBER", "Status Name", "Unload Location"],
          [["Z9", "cancelled", "NOWHERE"]]⟩
        ⟨["CONTAINER NUMBER", "Status Name", "Unload Location"], []⟩
        "CONTAINER NUMBER" =
      some ⟨["CONTAINER NUMBER", "CYMAN", "TOPS"], [⟨"Z9", "Missing", "Present"⟩]⟩ := by
  exact ⟨by decide, by decide⟩

/-- C3 (amended): every Source-A row contributes its normalized identifier to
Source A's Comparison Set — no Status or Location predicate excludes any row
before the set difference is computed. -/
theorem C3_every_row_contributes (df : DataFrame) (col v : String)
    (hv : v ∈ colValues df col) :
    normalizeId v ∈ containerSet df col := by
  unfold containerSet
  rw [List.mem_dedup]
  exact List.mem_map_of_mem _ hv

/-- C3 witness: the amended theorem applied to a one-row table. -/
theorem C3_every_row_contributes_witness :
    "cancelled" ∈ colValues ⟨["Status Name"], [["cancelled"]]⟩ "Status Name" ∧
      normalizeId "cancelled" ∈
        containerSet ⟨["Status Name"], [["cancelled"]]⟩ "Status Name" :=
  ⟨by decide, C3_every_row_contributes _ _ _ (by decide)⟩

/-- C7: if the container column is absent from either table's headers, the
comparison returns the distinguished absent value (src/app.py lines 77-79)
before any set work; no Report is produced. -/
theorem C7_missing_column_aborts (t c : DataFrame) (col : String)
    (h : col ∉ t.cols ∨ col ∉ c.cols) :
    compare_container_spreadsheets t c col = none := by
  unfold compare_container_spreadsheets
  exact if_neg (fun hc => h.elim (fun hh => hh hc.1) (fun hh => hh hc.2))

/-- C7 witness: a table pair whose second table lacks the column. -/
theorem C7_missing_column_aborts_witness :
    (("CONTAINER NUMBER" : String) ∉ (⟨["Unit No"], []⟩ : DataFrame).cols ∨
        ("CONTAINER NUMBER" : String) ∉ (⟨["Unit No"], []⟩ : DataFrame).cols) ∧
      compare_container_spreadsheets ⟨["CONTAINER NUMBER"], [["X1"]]⟩
        ⟨["Unit No"], []⟩ "CONTAINER NUMBER" = none :=
  ⟨Or.inr (by decide),
    C7_missing_column_aborts ⟨["CONTAINER NUMBER"], [["X1"]]⟩ ⟨["Unit No"], []⟩
      "CONTAINER NUMBER" (Or.inr (by decide))⟩

theorem filter_present_blocks (sA sB : List String) :
    ((sA.map tops_row ++ sB.map cyman_row).filter
        (fun r => r.tops == "Present")).map ResultRow.containerNumber = sA := by
  rw [List.filter_append]
  have h1 : (sA.map tops_row).filter (fun r => r.tops == "Present") = sA.map tops_row :=
    List.filter_eq_self.mpr (fun r hr => by
      obtain ⟨y, _, rfl⟩ := List.mem_map.mp hr; rfl)
  have h2 : (sB.map cyman_row).filter (fun r => r.tops == "Present") = [] :=
    List.filter_eq_nil_iff.mpr (fun r hr => by
      obtain ⟨y, _, rfl⟩ := List.mem_map.mp hr
      show ¬(("Missing" : String) == "Present") = true
      decide)
  rw [h1, h2, List.append_nil, List.map_map]
  exact List.map_id _

theorem filter_missing_blocks (sA sB : List String) :
    ((sA.map tops_row ++ sB.map cyman_row).filter
        (fun r => r.tops == "Missing")).map ResultRow.containerNumber = sB := by
  rw [List.filter_append]
  have h1 : (sA.map tops_row).filter (fun r => r.tops == "Missing") = [] :=
    List.filter_eq_nil_iff.mpr (fun r hr => by
      obtain ⟨y, _, rfl⟩ := List.mem_map.mp hr
      show ¬(("Present" : String) == "Missing") = true
      decide)
  have h2 : (sB.map cyman_row).filter (fun r => r.tops == "Missing") = sB.map cyman_row :=
    List.filter_eq_self.mpr (fun r hr => by
      obtain ⟨y, _, rfl⟩ := List.mem_map.mp hr; rfl)
  rw [h1, h2, List.nil_append, List.map_map]
  exact List.map_id _

/-- C4: in any produced Report, the identifiers flagged present in TOPS and
the identifiers flagged present only in Cyman are disjoint: no identifier
appears in both halves of the partition. -/
theorem C4_halves_disjoint (t c : DataFrame) (col : String) (rep : Report)
    (h : compare_container_spreadsheets t c col = some rep) (x : String)
    (hx : x ∈ (rep.rows.filter (fun r => r.tops == "Present")).map
      ResultRow.containerNumber) :
    x ∉ (rep.rows.filter (fun r => r.tops == "Missing")).map
      ResultRow.containerNumber := by
  obtain ⟨-, -, h3⟩ := compare_eq_some_elim h
  subst h3
  dsimp only at hx ⊢
  rw [filter_present_blocks, mem_sortedList, mem_setDiff] at hx
  rw [filter_missing_blocks, mem_sortedList, mem_setDiff]
  exact fun hy => hx.2 hy.1

/-- C4 witness: the disjointness applied to the scenario-1 tables. -/
theorem C4_halves_disjoint_witness :
    compare_container_spreadsheets ⟨["CONTAINER NUMBER"], [["X1"], ["X2"], ["X3"]]⟩
        ⟨["CONTAINER NUMBER"], [["X2"], ["X3"], ["X4"]]⟩ "CONTAINER NUMBER" =
      some ⟨["CONTAINER NUMBER", "CYMAN", "TOPS"],
        [⟨"X1", "Missing", "Present"⟩, ⟨"X4", "Present", "Missing"⟩]⟩ ∧
    "X1" ∈ ((Report.rows ⟨["CONTAINER NUMBER", "CYMAN", "TOPS"],
        [⟨"X1", "Missing", "Present"⟩, ⟨"X4", "Present", "Missing"⟩]⟩).filter
        (fun r => r.tops == "Present")).map ResultRow.containerNumber ∧
    "X1" ∉ ((Report.rows ⟨["CONTAINER NUMBER", "CYMAN", "TOPS"],
        [⟨"X1", "Missing", "Present"⟩, ⟨"X4", "Present", "Missing"⟩]⟩).filter
        (fun r => r.tops == "Missing")).map ResultRow.containerNumber :=
  ⟨by decide, by decide,
    C4_halves_disjoint ⟨["CONTAINER NUMBER"], [["X1"], ["X2"], ["X3"]]⟩
      ⟨["CONTAINER NUMBER"], [["X2"], ["X3"], ["X4"]]⟩ "CONTAINER NUMBER"
      ⟨["CONTAINER NUMBER", "CYMAN", "TOPS"],
        [⟨"X1", "Missing", "Present"⟩, ⟨"X4", "Present", "Missing"⟩]⟩
      (by decide) "X1" (by decide)⟩

/-- C10: every Discrepancy Record marks exactly one system Missing and the
other Present, and its flags are determined by the half of the set
difference its identifier came from; no record is flagged present in both or
missing in both. -/
theorem C10_flags_partition (t c : DataFrame) (col : String) (rep : Report)
    (h : compare_container_spreadsheets t c col = some rep) :
    ∀ r ∈ rep.rows,
      (r.cyman = "Missing" ∧ r.tops = "Present" ∧
        r.containerNumber ∈ setDiff (containerSet t col) (containerSet c col)) ∨
      (r.cyman = "Present" ∧ r.tops = "Missing" ∧
        r.containerNumber ∈ setDiff (containerSet c col) (containerSet t col)) := by
  obtain ⟨-, -, h3⟩ := compare_eq_some_elim h
  subst h3
  intro r hr
  dsimp only at hr
  rcases List.mem_append.mp hr with hr | hr
  · obtain ⟨y, hy, rfl⟩ := List.mem_map.mp hr
    exact Or.inl ⟨rfl, rfl, mem_sortedList.mp hy⟩
  · obtain ⟨y, hy, rfl⟩ := List.mem_map.mp hr
    exact Or.inr ⟨rfl, rfl, mem_sortedList.mp hy⟩

/-- C10 witness: the flag partition at a one-row report. -/
theorem C10_flags_partition_witness :
    (ResultRow.cyman ⟨"X1", "Missing", "Present"⟩ = "Missing" ∧
      ResultRow.tops ⟨"X1", "Missing", "Present"⟩ = "Present" ∧
      ResultRow.containerNumber ⟨"X1", "Missing", "Present"⟩ ∈
        setDiff (containerSet ⟨["CONTAINER NUMBER"], [["X1"]]⟩ "CONTAINER NUMBER")
          (containerSet ⟨["CONTAINER NUMBER"], []⟩ "CONTAINER NUMBER")) ∨
    (ResultRow.cyman ⟨"X1", "Missing", "Present"⟩ = "Present" ∧
      ResultRow.tops ⟨"X1", "Missing", "Present"⟩ = "Missing" ∧
      ResultRow.containerNumber ⟨"X1", "Missing", "Present"⟩ ∈
        setDiff (containerSet ⟨["CONTAINER NUMBER"], []⟩ "CONTAINER NUMBER")
          (containerSet ⟨["CONTAINER NUMBER"], [["X1"]]⟩ "CONTAINER NUMBER")) :=
  C10_flags_partition ⟨["CONTAINER NUMBER"], [["X1"]]⟩ ⟨["CONTAINER NUMBER"], []⟩
    "CONTAINER NUMBER"
    ⟨["CONTAINER NUMBER", "CYMAN", "TOPS"], [⟨"X1", "Missing", "Present"⟩]⟩
    (by decide) ⟨"X1", "Missing", "Present"⟩ (by decide)

theorem setDiff_nil_left (b : List String) : setDiff [] b = [] := rfl

theorem setDiff_nil_right (b : List String) : setDiff b [] = b := by
  simp [setDiff]

theorem sortedList_nil : sortedList [] = [] := rfl

/-- C8: an empty filtered table is not an error.  If one table contributes no
identifiers the comparison still succeeds and every identifier of the other
table is reported as present only in that other system; if both contribute
none, the result is an empty Report that still carries the three result
columns. -/
theorem C8_empty_input_ok (t c : DataFrame) (col : String)
    (h1 : col ∈ t.cols) (h2 : col ∈ c.cols) :
    (containerSet t col = [] →
      ∃ rep : Report, compare_container_spreadsheets t c col = some rep ∧
        (∀ x ∈ containerSet c col, cyman_row x ∈ rep.rows) ∧
        (∀ r ∈ rep.rows, r.cyman = "Present" ∧ r.tops = "Missing")) ∧
    (containerSet c col = [] →
      ∃ rep : Report, compare_container_spreadsheets t c col = some rep ∧
        (∀ x ∈ containerSet t col, tops_row x ∈ rep.rows) ∧
        (∀ r ∈ rep.rows, r.cyman = "Missing" ∧ r.tops = "Present")) ∧
    (containerSet t col = [] → containerSet c col = [] →
      compare_container_spreadsheets t c col =
        some ⟨["CONTAINER NUMBER", "CYMAN", "TOPS"], []⟩) := by
  have hcmp : compare_container_spreadsheets t c col =
      some ⟨["CONTAINER NUMBER", "CYMAN", "TOPS"],
        (sortedList (setDiff (containerSet t col) (containerSet c col))).map tops_row ++
          (sortedList (setDiff (containerSet c col) (containerSet t col))).map cyman_row⟩ := by
    unfold compare_container_spreadsheets
    rw [if_pos ⟨h1, h2⟩]
  refine ⟨fun hA => ?_, fun hB => ?_, fun hA hB => ?_⟩
  · rw [hA, setDiff_nil_left, setDiff_nil_right, sortedList_nil, List.map_nil,
      List.nil_append] at hcmp
    refine ⟨_, hcmp, fun x hx => ?_, fun r hr => ?_⟩
    · exact List.mem_map_of_mem _ (mem_sortedList.mpr hx)
    · obtain ⟨y, _, rfl⟩ := List.mem_map.mp hr
      exact ⟨rfl, rfl⟩
  · rw [hB, setDiff_nil_left, setDiff_nil_right, sortedList_nil, List.map_nil,
      List.append_nil] at hcmp
    refine ⟨_, hcmp, fun x hx => ?_, fun r hr => ?_⟩
    · exact List.mem_map_of_mem _ (mem_sortedList.mpr hx)
    · obtain ⟨y, _, rfl⟩ := List.mem_map.mp hr
      exact ⟨rfl, rfl⟩
  · rw [hA, hB, setDiff_nil_left, sortedList_nil, List.map_nil, List.nil_append,
      List.map_nil] at hcmp
    exact hcmp

/-- C8 witness: one empty table, one table with a single identifier. -/
theorem C8_empty_input_ok_witness :
    (containerSet ⟨["CONTAINER NUMBER"], []⟩ "CONTAINER NUMBER" = [] →
      ∃ rep : Report,
        compare_container_spreadsheets ⟨["CONTAINER NUMBER"], []⟩
            ⟨["CONTAINER NUMBER"], [["X1"]]⟩ "CONTAINER NUMBER" = some rep ∧
        (∀ x ∈ containerSet ⟨["CONTAINER NUMBER"], [["X1"]]⟩ "CONTAINER NUMBER",
          cyman_row x ∈ rep.rows) ∧
        (∀ r ∈ rep.rows, r.cyman = "Present" ∧ r.tops = "Missing")) ∧
    (containerSet ⟨["CONTAINER NUMBER"], [["X1"]]⟩ "CONTAINER NUMBER" = [] →
      ∃ rep : Report,
        compare_container_spreadsheets ⟨["CONTAINER NUMBER"], []⟩
            ⟨["CONTAINER NUMBER"], [["X1"]]⟩ "CONTAINER NUMBER" = some rep ∧
        (∀ x ∈ containerSet ⟨["CONTAINER NUMBER"], []⟩ "CONTAINER NUMBER",
          tops_row x ∈ rep.rows) ∧
        (∀ r ∈ rep.rows, r.cyman = "Missing" ∧ r.tops = "Present")) ∧
    (containerSet ⟨["CONTAINER NUMBER"], []⟩ "CONTAINER NUMBER" = [] →
      containerSet ⟨["CONTAINER NUMBER"], [["X1"]]⟩ "CONTAINER NUMBER" = [] →
      compare_container_spreadsheets ⟨["CONTAINER NUMBER"], []⟩
          ⟨["CONTAINER NUMBER"], [["X1"]]⟩ "CONTAINER NUMBER" =
        some ⟨["CONTAINER NUMBER", "CYMAN", "TOPS"], []⟩) :=
  C8_empty_input_ok ⟨["CONTAINER NUMBER"], []⟩ ⟨["CONTAINER NUMBER"], [["X1"]]⟩
    "CONTAINER NUMBER" (by decide) (by decide)

theorem find?_some_decomp {α} (p : α → Bool) :
    ∀ (l : List α) (a : α), l.find? p = some a →
      ∃ u v, l = u ++ a :: v ∧ p a = true ∧ ∀ b ∈ u, p b = false := by
  intro l
  induction l with
  | nil => intro a h; simp at h
  | cons x t ih =>
    intro a h
    by_cases hx : p x = true
    · rw [List.find?_cons_of_pos t hx] at h
      obtain rfl := Option.some.inj h
      exact ⟨[], t, rfl, hx, by simp⟩
    · rw [List.find?_cons_of_neg t hx] at h
      obtain ⟨u, v, rfl, hpa, hu⟩ := ih a h
      refine ⟨x :: u, v, rfl, hpa, ?_⟩
      intro b hb
      rcases List.mem_cons.mp hb with rfl | hb
      · simpa using hx
      · exact hu b hb

/-- C6: the column resolver works in two stages.  If some exact candidate
header is present, the result is the earliest candidate in declaration order
that is present.  Otherwise, if some header contains "container"
case-insensitively, the result is the first such header in table column
order.  If neither stage matches, the resolver returns the distinguished
absent value `none` rather than an error. -/
theorem C6_resolver_staged (df : DataFrame) :
    ((∃ n ∈ possible_column_names, n ∈ df.cols) →
      ∃ n u v, identify_container_column df = some n ∧
        possible_column_names = u ++ n :: v ∧ n ∈ df.cols ∧
        ∀ m ∈ u, m ∉ df.cols) ∧
    ((∀ n ∈ possible_column_names, n ∉ df.cols) →
      (∃ cl ∈ df.cols, lowerContainsContainer cl = true) →
      ∃ cl u v, identify_container_column df = some cl ∧
        df.cols = u ++ cl :: v ∧ lowerContainsContainer cl = true ∧
        ∀ d ∈ u, lowerContainsContainer d = false) ∧
    ((∀ n ∈ possible_column_names, n ∉ df.cols) →
      (∀ cl ∈ df.cols, lowerContainsContainer cl = false) →
      identify_container_column df = none) := by
  have hnone_of : (∀ n ∈ possible_column_names, n ∉ df.cols) →
      possible_column_names.find? (fun n => decide (n ∈ df.cols)) = none :=
    fun hall => List.find?_eq_none.mpr (fun n hn => by simpa using hall n hn)
  refine ⟨fun hex => ?_, fun hall hex => ?_, fun hall hall2 => ?_⟩
  · cases hf : possible_column_names.find? (fun n => decide (n ∈ df.cols)) with
    | none =>
      obtain ⟨n, hn, hmem⟩ := hex
      have := List.find?_eq_none.mp hf n hn
      simp at this
      exact absurd hmem this
    | some n =>
      obtain ⟨u, v, hsplit, hpa, hu⟩ := find?_some_decomp _ _ _ hf
      refine ⟨n, u, v, ?_, hsplit, by simpa using hpa,
        fun m hm => by simpa using hu m hm⟩
      unfold identify_container_column
      rw [hf]
  · have hf := hnone_of hall
    have hid : identify_container_column df =
        df.cols.find? (fun cl => lowerContainsContainer cl) := by
      unfold identify_container_column
      rw [hf]
    cases hg : df.cols.find? (fun cl => lowerContainsContainer cl) with
    | none =>
      obtain ⟨cl, hcl, hlc⟩ := hex
      exact absurd hlc (by simpa using List.find?_eq_none.mp hg cl hcl)
    | some cl =>
      obtain ⟨u, v, hsplit, hpa, hu⟩ := find?_some_decomp _ _ _ hg
      exact ⟨cl, u, v, by rw [hid, hg], hsplit, hpa, hu⟩
  · have hf := hnone_of hall
    unfold identify_container_column
    rw [hf]
    exact List.find?_eq_none.mpr (fun cl hcl => by simp [hall2 cl hcl])

/-- C6 witness: neither stage matches for headers ["x", "UNIT"], so the
resolver returns `none`. -/
theorem C6_resolver_staged_witness :
    (∀ n ∈ possible_column_names, n ∉ (⟨["x", "UNIT"], []⟩ : DataFrame).cols) ∧
    (∀ cl ∈ (⟨["x", "UNIT"], []⟩ : DataFrame).cols,
      lowerContainsContainer cl = false) ∧
    identify_container_column ⟨["x", "UNIT"], []⟩ = none :=
  ⟨by decide, by decide,
    (C6_resolver_staged ⟨["x", "UNIT"], []⟩).2.2 (by decide) (by decide)⟩

end App
